import Mathlib

/-!
Shallow embedding of the ChatGPT browser bridge (chatgpt_bridge.py,
browser.py, mcp_server.py).

Browser and page interactions are modelled through explicit environments:
a function giving what a page query would observe at each poll tick, an
Option value for an operation that may throw (none = raised), and Except
values for results that may be an error.  Polling loops in the source all
have the shape "while elapsed < ceiling: check; sleep(interval)", which is
embedded as pollUntil with ceiling / interval ticks.
-/

/-- Constant RESPONSE_POLL_INTERVAL_MS from chatgpt_bridge.py. -/
def RESPONSE_POLL_INTERVAL_MS : Nat := 1000

/-- Constant RESPONSE_TIMEOUT_MS from chatgpt_bridge.py (40 minutes). -/
def RESPONSE_TIMEOUT_MS : Nat := 2400000

/-- Constant UPLOAD_TIMEOUT_MS from chatgpt_bridge.py. -/
def UPLOAD_TIMEOUT_MS : Nat := 60000

/-- Constant UPLOAD_POLL_INTERVAL_MS from chatgpt_bridge.py. -/
def UPLOAD_POLL_INTERVAL_MS : Nat := 500

/-- Constant SEND_TIMEOUT_S from chatgpt_bridge.py (overall send timeout). -/
def SEND_TIMEOUT_S : Nat := 2500

/-- Constant MAX_PASTE_RETRIES from chatgpt_bridge.py. -/
def MAX_PASTE_RETRIES : Nat := 3

/-- Constant NAV_TIMEOUT_MS from browser.py. -/
def NAV_TIMEOUT_MS : Nat := 30000

/-- Constant NAV_MAX_RETRIES from browser.py. -/
def NAV_MAX_RETRIES : Nat := 3

/-- Generic embedding of the source's polling loops
("elapsed = 0; while elapsed < ceiling: if check: break; sleep; elapsed += interval").
The first argument gives the observation at each tick, the second the number
of ticks (ceiling divided by interval), the third the current tick.  Returns
the first tick at which the check succeeded, or none when the ceiling was
exhausted without a success. -/
def pollUntil (check : Nat → Bool) : Nat → Nat → Option Nat
  | 0, _ => none
  | n + 1, t => if check t then some t else pollUntil check n (t + 1)

/-- Whitespace as stripped from the ends of a string (Python str.strip). -/
def isStripSpace (c : Char) : Bool :=
  c == ' ' || c == '\t' || c == '\n' || c == '\r' || c == '\x0b' || c == '\x0c'

/-- Leading and trailing whitespace removal (Python str.strip). -/
def stripChars (cs : List Char) : List Char :=
  ((cs.dropWhile isStripSpace).reverse.dropWhile isStripSpace).reverse

/-- Line-ending unification: the sequential replaces
text.replace of CRLF by LF and then of CR by LF, as a single left-to-right
pass over the characters. -/
def normalizeNewlines : List Char → List Char
  | [] => []
  | '\r' :: '\n' :: rest => '\n' :: normalizeNewlines rest
  | '\r' :: rest => '\n' :: normalizeNewlines rest
  | c :: rest => c :: normalizeNewlines rest

/-- Embeds _normalize_text from chatgpt_bridge.py: strip surrounding
whitespace, then unify line endings to LF. -/
def normalizeText (text : String) : String :=
  String.mk (normalizeNewlines (stripChars text.data))

/-- Outcome of the clear-paste-verify cycle: how many paste attempts were
performed, and either success or the pair (expected length, actual length)
carried by the raised RuntimeError. -/
structure PasteOutcome where
  attemptsUsed : Nat
  result : Except (Nat × Nat) Unit
deriving Repr

/-- Embeds the retry loop of _clear_paste_and_verify.  reads i is the text
read back from the textarea after the paste of attempt i (0-based); the
read at index MAX_PASTE_RETRIES models the extra inner_text call performed
while building the RuntimeError message.  expected is the normalized
intended message; used counts attempts already performed. -/
def pasteVerifyLoop (reads : Nat → String) (expected : String) :
    Nat → Nat → PasteOutcome
  | 0, used =>
      ⟨used, .error (expected.length, (normalizeText (reads used)).length)⟩
  | remaining + 1, used =>
      if normalizeText (reads used) = expected then ⟨used + 1, .ok ()⟩
      else pasteVerifyLoop reads expected remaining (used + 1)

/-- Embeds _clear_paste_and_verify from chatgpt_bridge.py: up to
MAX_PASTE_RETRIES clear-paste-verify attempts against the intended
message, raising with the expected and actual character counts when all
attempts mismatch. -/
def clearPasteAndVerify (reads : Nat → String) (message : String) : PasteOutcome :=
  pasteVerifyLoop reads (normalizeText message) MAX_PASTE_RETRIES 0

/-- Message of the RuntimeError raised by _clear_paste_and_verify after all
attempts mismatch. -/
def pasteMismatchMessage (expectedLen actualLen : Nat) : String :=
  "Textarea content mismatch after " ++ toString MAX_PASTE_RETRIES ++
    " attempts. Expected " ++ toString expectedLen ++ " chars, got " ++
    toString actualLen ++ " chars."

/-- Outcome of navigate_to_chat: how many navigation attempts were made, how
many full restarts were performed, and the result (ok, or the message of the
raised RuntimeError). -/
structure NavOutcome where
  attempts : Nat
  restarts : Nat
  result : Except String Unit
deriving Repr

/-- Message of the RuntimeError raised by navigate_to_chat in browser.py
when every attempt failed. -/
def navErrorMessage (lastUrl : String) (headless : Bool) : String :=
  "ChatGPT nicht erreichbar nach " ++ toString NAV_MAX_RETRIES ++
    " Versuchen (letzte URL: " ++ lastUrl ++ ", headless=" ++
    toString headless ++ ")"

/-- Embeds the retry loop of navigate_to_chat: ok i tells whether attempt i
(1-based) reaches the page-ready signal; after a failed attempt other than
the last one a full _restart (close, 2s cooldown, relaunch) is performed. -/
def navLoop (ok : Nat → Bool) (errMsg : String) : Nat → Nat → NavOutcome
  | _, 0 => ⟨0, 0, .error errMsg⟩
  | attempt, remaining + 1 =>
      if ok attempt then ⟨1, 0, .ok ()⟩
      else if remaining = 0 then ⟨1, 0, .error errMsg⟩
      else
        let rest := navLoop ok errMsg (attempt + 1) remaining
        ⟨rest.attempts + 1, rest.restarts + 1, rest.result⟩

/-- Embeds navigate_to_chat from browser.py: up to NAV_MAX_RETRIES attempts,
a full restart between attempts, and on exhaustion a RuntimeError naming
the retry count, the last observed URL and the headless flag. -/
def navigateToChat (ok : Nat → Bool) (lastUrl : String) (headless : Bool) : NavOutcome :=
  navLoop ok (navErrorMessage lastUrl headless) 1 NAV_MAX_RETRIES

/-- Sentinel value written to the OS clipboard before clicking the copy
button in _wait_and_copy_response. -/
def SENTINEL : String := "__SENTINEL__"

/-- Environment of one _wait_and_copy_response call: what each page query
would observe.  counts t is the assistant-message count seen at step-1 poll
tick t; stopPresent t tells whether the stop button is present at step-2
poll tick t; osClipboard is the pyperclip.paste result after the copy click
(none = pyperclip raised); jsClipboard is the page-side clipboard read
(none = evaluate raised); domMessages are the inner texts of the
ASSISTANT_MESSAGE elements. -/
structure ResponseEnv where
  counts : Nat → Nat
  stopPresent : Nat → Bool
  turnsPresent : Bool
  copyBtnPresent : Bool
  osClipboard : Option String
  jsClipboard : Option String
  domMessages : List String

/-- Embeds _read_clipboard from chatgpt_bridge.py: a pyperclip failure
yields the empty string. -/
def readClipboard (env : ResponseEnv) : String := env.osClipboard.getD ""

/-- Embeds _dom_scrape_response from chatgpt_bridge.py: inner text of the
last assistant message, or the empty string when none exists. -/
def domScrapeResponse (env : ResponseEnv) : String := env.domMessages.getLast?.getD ""

/-- Message of the TimeoutError raised when generation never finishes. -/
def responseTimeoutMessage : String :=
  "ChatGPT hat nicht innerhalb des Timeouts geantwortet"

/-- Embeds steps 2-5 of _wait_and_copy_response: wait for the stop button to
disappear, then extract the reply — OS clipboard after clicking the copy
button, then the page-side clipboard read, then DOM scrape; the turns- or
copy-button-missing branches fall straight to the DOM scrape. -/
def extractAfterNewMessage (env : ResponseEnv) : Except String String :=
  match pollUntil (fun t => !env.stopPresent t)
      (RESPONSE_TIMEOUT_MS / RESPONSE_POLL_INTERVAL_MS) 0 with
  | none => .error responseTimeoutMessage
  | some _ =>
    if !env.turnsPresent then .ok (domScrapeResponse env)
    else if !env.copyBtnPresent then .ok (domScrapeResponse env)
    else
      let clipboardText := readClipboard env
      if clipboardText ≠ "" ∧ clipboardText ≠ SENTINEL then .ok clipboardText
      else
        match env.jsClipboard with
        | some jsText =>
            if jsText ≠ "" ∧ jsText ≠ SENTINEL then .ok jsText
            else .ok (domScrapeResponse env)
        | none => .ok (domScrapeResponse env)

/-- Embeds _wait_and_copy_response from chatgpt_bridge.py: step 1 polls for
the assistant-message count to exceed previousCount (1s interval, 30s
ceiling); exhaustion returns the empty string (while-else branch), a hit
proceeds to generation-wait and extraction. -/
def waitAndCopyResponse (env : ResponseEnv) (previousCount : Nat) : Except String String :=
  match pollUntil (fun t => decide (previousCount < env.counts t))
      (30000 / RESPONSE_POLL_INTERVAL_MS) 0 with
  | none => .ok ""
  | some _ => extractAfterNewMessage env

/-- Outcome of _wait_for_upload_complete: either the disabled state cleared
at some poll tick, or the 60s ceiling was exhausted — in which case the
source logs a warning and returns normally (sende trotzdem). -/
inductive UploadOutcome
  | completed (tick : Nat)
  | timedOutProceed
deriving Repr, DecidableEq

/-- Embeds _wait_for_upload_complete from chatgpt_bridge.py:
disabledPresent t tells whether the disabled send button is still matched
at poll tick t (500ms interval after the initial 1s settle). -/
def waitForUploadComplete (disabledPresent : Nat → Bool) : UploadOutcome :=
  match pollUntil (fun t => !disabledPresent t)
      (UPLOAD_TIMEOUT_MS / UPLOAD_POLL_INTERVAL_MS) 0 with
  | some t => .completed t
  | none => .timedOutProceed

/-- Environment of one _send_message_impl call.  sendBtnEnabled models page
state that the source never consults: the fallback-click branch only asks
whether the send-button selector matched (sendBtnPresent). -/
structure SendEnv where
  previousCount : Nat
  hasFile : Bool
  fileAttachOk : Bool
  uploadDisabled : Nat → Bool
  pasteReads : Nat → String
  sendBtnPresent : Bool
  sendBtnEnabled : Bool
  response : ResponseEnv

/-- Error used when neither the direct file input nor the trigger control
can be found during _upload_file. -/
def fileAttachError : String := "file_input not found"

/-- Trace of one _send_message_impl call: the upload-wait outcome when a
file was attached, whether the fallback click on the send button was
performed, and the final result. -/
structure SendTrace where
  uploadOutcome : Option UploadOutcome
  fallbackClicked : Bool
  result : Except String String

/-- Embeds _send_message_impl from chatgpt_bridge.py: count existing
assistant messages, optionally attach the file and wait for the upload,
clear-paste-verify the message, press Enter, click the send button as a
fallback when its selector still matches, then wait for and extract the
reply. -/
def sendMessageImpl (env : SendEnv) (message : String) : SendTrace :=
  if env.hasFile && !env.fileAttachOk then
    ⟨none, false, .error fileAttachError⟩
  else
    let upload := if env.hasFile then some (waitForUploadComplete env.uploadDisabled) else none
    match (clearPasteAndVerify env.pasteReads message).result with
    | .error (e, a) => ⟨upload, false, .error (pasteMismatchMessage e a)⟩
    | .ok () =>
        ⟨upload, env.sendBtnPresent, waitAndCopyResponse env.response env.previousCount⟩

/-- Message of the TimeoutError raised by send_message when the overall
asyncio.wait_for deadline fires. -/
def sendTimeoutMessage (currentUrl : String) : String :=
  "send_message Gesamt-Timeout (" ++ toString SEND_TIMEOUT_S ++
    "s) überschritten. URL: " ++ currentUrl

/-- Embeds send_message from chatgpt_bridge.py: the implementation runs
under an overall SEND_TIMEOUT_S deadline; timedOut tells whether that
deadline fired, urlReadable models whether page.url is still accessible at
that moment (none = raised, replaced by a placeholder). -/
def sendMessage (timedOut : Bool) (urlReadable : Option String)
    (env : SendEnv) (message : String) : Except String String :=
  if timedOut then
    .error (sendTimeoutMessage (urlReadable.getD "<unavailable>"))
  else
    (sendMessageImpl env message).result

/-- Observable state of a ChatGPTBrowser instance as seen by the liveness
probes in browser.py: whether _context and _page are non-None, what
page.is_closed would return (none = raised), and whether evaluating the
trivial JS expression on the page succeeds (none = raised). -/
structure BrowserState where
  contextPresent : Bool
  pagePresent : Bool
  pageIsClosed : Option Bool
  pageEval : Option Unit

/-- Embeds is_context_alive from browser.py: False when _context or _page
is None, not is_closed() otherwise, and False when is_closed raises. -/
def is_context_alive (b : BrowserState) : Bool :=
  if !b.contextPresent || !b.pagePresent then false
  else
    match b.pageIsClosed with
    | some closed => !closed
    | none => false

/-- Embeds check_context_alive from browser.py: False when the synchronous
check fails, otherwise True exactly when evaluating document.readyState on
the page succeeds. -/
def check_context_alive (b : BrowserState) : Bool :=
  if ! is_context_alive b then false
  else
    match b.pageEval with
    | some _ => true
    | none => false

/-- Classification returned by detect_and_dismiss_errors in browser.py. -/
inductive DetectedError
  | cloudflareChallenge
  | sessionExpired
  | errorDialogDismissed
  | errorDialogVisible
deriving Repr, DecidableEq

/-- Environment of one _ensure_ready call in mcp_server.py: the async
liveness probe result, the newChat argument, the current _navigated global,
the classification returned by detect_and_dismiss_errors (none = all
clear), the is_logged_in result, and the outcome of the auto-visible-login
escalation when it runs. -/
structure ReadyEnv where
  contextAlive : Bool
  newChat : Bool
  navigated : Bool
  errorState : Option DetectedError
  loggedIn : Bool
  autoLoginResult : Except String Unit

/-- Trace of one _ensure_ready call: whether the dead-context restart ran,
whether navigation ran, whether step 4 consulted is_logged_in, whether the
auto-visible-login escalation ran, and the result. -/
structure ReadyTrace where
  restarted : Bool
  navigatedNow : Bool
  loginChecked : Bool
  autoLoginRun : Bool
  result : Except String Unit

/-- Message of the RuntimeError raised on a Cloudflare challenge. -/
def cloudflareMessage : String :=
  "Cloudflare-Challenge erkannt. Im Headless-Modus nicht lösbar."

/-- Embeds _ensure_ready from mcp_server.py: restart on dead context,
navigate when needed, then branch on the error classification — challenge
raises, session_expired goes straight into _auto_visible_login and
returns, every other case falls through to the is_logged_in check. -/
def ensureReady (env : ReadyEnv) : ReadyTrace :=
  let restarted := !env.contextAlive
  let navigatedNow := env.newChat || !env.navigated || restarted
  match env.errorState with
  | some .cloudflareChallenge =>
      ⟨restarted, navigatedNow, false, false, .error cloudflareMessage⟩
  | some .sessionExpired =>
      ⟨restarted, navigatedNow, false, true, env.autoLoginResult⟩
  | _ =>
      if env.loggedIn then ⟨restarted, navigatedNow, true, false, .ok ()⟩
      else ⟨restarted, navigatedNow, true, true, env.autoLoginResult⟩

/-- Module-level state of mcp_server.py that chatgpt_reset touches:
_browser (is it non-None) and _navigated. -/
structure ServerState where
  browserStarted : Bool
  navigated : Bool
deriving Repr, DecidableEq

/-- Success string returned by chatgpt_reset. -/
def resetMessage : String :=
  "Browser zurückgesetzt. Nächster chatgpt_send startet frisch."

/-- Trace of one chatgpt_reset call: whether _browser.close() was
attempted, the new module state, and the returned string. -/
structure ResetTrace where
  closeAttempted : Bool
  newState : ServerState
  reply : String

/-- Embeds chatgpt_reset from mcp_server.py: when a browser exists its
close() is attempted and any close error is caught and only logged
(closeResult never influences the outcome); both globals are then cleared
and the success string is returned. -/
def chatgptReset (closeResult : Except String Unit) (st : ServerState) : ResetTrace :=
  { closeAttempted := st.browserStarted
    newState := { browserStarted := false, navigated := false }
    reply := resetMessage }

/-! Helper lemmas about the polling and retry loops. -/

/-- A poll loop exhausts its ceiling exactly when the check fails at every
tick of the window. -/
theorem pollUntil_none_iff (check : Nat → Bool) :
    ∀ n t, pollUntil check n t = none ↔
      ∀ s, t ≤ s → s < t + n → check s = false := by
  intro n
  induction n with
  | zero =>
      intro t
      constructor
      · intro _ s h1 h2; omega
      · intro _; rfl
  | succ k ih =>
      intro t
      simp only [pollUntil]
      by_cases hc : check t = true
      · rw [if_pos hc]
        constructor
        · intro h; exact absurd h (by simp)
        · intro h
          have := h t le_rfl (by omega)
          rw [hc] at this
          exact absurd this (by simp)
      · rw [if_neg hc]
        rw [ih (t + 1)]
        constructor
        · intro h s h1 h2
          rcases Nat.eq_or_lt_of_le h1 with rfl | h3
          · exact Bool.eq_false_iff.mpr hc
          · exact h s h3 (by omega)
        · intro h s h1 h2
          exact h s (by omega) (by omega)

/-- A successful tick inside the window makes the poll loop return some
tick. -/
theorem pollUntil_some_of_exists (check : Nat → Bool) (n t : Nat)
    (h : ∃ s, t ≤ s ∧ s < t + n ∧ check s = true) :
    ∃ s, pollUntil check n t = some s := by
  rcases h with ⟨s, h1, h2, h3⟩
  cases hp : pollUntil check n t with
  | some u => exact ⟨u, rfl⟩
  | none =>
      have := (pollUntil_none_iff check n t).mp hp s h1 h2
      rw [this] at h3
      exact absurd h3 (by simp)

/-- A returned tick lies inside the window and satisfies the check. -/
theorem pollUntil_some_spec (check : Nat → Bool) :
    ∀ n t s, pollUntil check n t = some s →
      t ≤ s ∧ s < t + n ∧ check s = true := by
  intro n
  induction n with
  | zero => intro t s h; exact absurd h (by simp [pollUntil])
  | succ k ih =>
      intro t s h
      simp only [pollUntil] at h
      by_cases hc : check t = true
      · rw [if_pos hc] at h
        have := Option.some.inj h
        subst this
        exact ⟨le_rfl, by omega, hc⟩
      · rw [if_neg hc] at h
        obtain ⟨h1, h2, h3⟩ := ih (t + 1) s h
        exact ⟨by omega, by omega, h3⟩

/-- The paste loop never performs more attempts than it has left. -/
theorem pasteVerifyLoop_attempts_le (reads : Nat → String) (expected : String) :
    ∀ remaining used,
      (pasteVerifyLoop reads expected remaining used).attemptsUsed ≤ used + remaining := by
  intro remaining
  induction remaining with
  | zero => intro used; simp [pasteVerifyLoop]
  | succ r ih =>
      intro used
      simp only [pasteVerifyLoop]
      by_cases hc : normalizeText (reads used) = expected
      · rw [if_pos hc]; show used + 1 ≤ used + (r + 1); omega
      · rw [if_neg hc]
        have := ih (used + 1)
        omega

/-- The paste loop succeeds exactly when some attempt in its window reads
back the expected text. -/
theorem pasteVerifyLoop_ok_iff (reads : Nat → String) (expected : String) :
    ∀ remaining used,
      (pasteVerifyLoop reads expected remaining used).result = .ok () ↔
        ∃ i, used ≤ i ∧ i < used + remaining ∧ normalizeText (reads i) = expected := by
  intro remaining
  induction remaining with
  | zero =>
      intro used
      constructor
      · intro h; exact absurd h (by simp [pasteVerifyLoop])
      · rintro ⟨i, h1, h2, _⟩; omega
  | succ r ih =>
      intro used
      simp only [pasteVerifyLoop]
      by_cases hc : normalizeText (reads used) = expected
      · rw [if_pos hc]
        constructor
        · intro _; exact ⟨used, le_rfl, by omega, hc⟩
        · intro _; rfl
      · rw [if_neg hc]
        rw [ih (used + 1)]
        constructor
        · rintro ⟨i, h1, h2, h3⟩; exact ⟨i, by omega, by omega, h3⟩
        · rintro ⟨i, h1, h2, h3⟩
          rcases Nat.eq_or_lt_of_le h1 with rfl | h4
          · exact absurd h3 hc
          · exact ⟨i, by omega, by omega, h3⟩

/-- When every attempt in the window mismatches, the paste loop raises with
the expected length and the length of one further read. -/
theorem pasteVerifyLoop_all_fail (reads : Nat → String) (expected : String) :
    ∀ remaining used,
      (∀ i, used ≤ i → i < used + remaining → normalizeText (reads i) ≠ expected) →
      pasteVerifyLoop reads expected remaining used =
        ⟨used + remaining,
         .error (expected.length, (normalizeText (reads (used + remaining))).length)⟩ := by
  intro remaining
  induction remaining with
  | zero => intro used _; simp [pasteVerifyLoop]
  | succ r ih =>
      intro used h
      simp only [pasteVerifyLoop]
      rw [if_neg (h used le_rfl (by omega))]
      have := ih (used + 1) (fun i h1 h2 => h i (by omega) (by omega))
      rw [this]
      have he : used + 1 + r = used + (r + 1) := by omega
      rw [he]

/-- Success criterion of _clear_paste_and_verify, in terms of which attempt
first reads back the normalized message. -/
theorem clearPasteAndVerify_ok_iff (reads : Nat → String) (message : String) :
    (clearPasteAndVerify reads message).result = .ok () ↔
      ∃ i, i < MAX_PASTE_RETRIES ∧ normalizeText (reads i) = normalizeText message := by
  have := pasteVerifyLoop_ok_iff reads (normalizeText message) MAX_PASTE_RETRIES 0
  simpa using this

/-- The navigation loop never makes more attempts than it has left. -/
theorem navLoop_attempts_le (ok : Nat → Bool) (errMsg : String) :
    ∀ remaining attempt, (navLoop ok errMsg attempt remaining).attempts ≤ remaining := by
  intro remaining
  induction remaining with
  | zero => intro attempt; simp [navLoop]
  | succ r ih =>
      intro attempt
      simp only [navLoop]
      by_cases hc : ok attempt = true
      · rw [if_pos hc]; show 1 ≤ r + 1; omega
      · rw [if_neg hc]
        by_cases hr : r = 0
        · rw [if_pos hr]; show 1 ≤ r + 1; omega
        · rw [if_neg hr]
          have := ih (attempt + 1)
          show (navLoop ok errMsg (attempt + 1) r).attempts + 1 ≤ r + 1
          omega

/-- When the first k attempts fail and attempt k+1 succeeds inside the
window, the navigation loop stops there having restarted k times. -/
theorem navLoop_success (ok : Nat → Bool) (errMsg : String) :
    ∀ remaining attempt k, k + 1 ≤ remaining →
      (∀ j, j < k → ok (attempt + j) = false) → ok (attempt + k) = true →
      navLoop ok errMsg attempt remaining = ⟨k + 1, k, .ok ()⟩ := by
  intro remaining
  induction remaining with
  | zero => intro attempt k hk _ _; omega
  | succ r ih =>
      intro attempt k hk hfail hok
      cases k with
      | zero =>
          have h0 : ok attempt = true := by simpa using hok
          simp only [navLoop]
          rw [if_pos h0]
      | succ m =>
          have h0 : ok attempt = false := by simpa using hfail 0 (by omega)
          simp only [navLoop]
          rw [if_neg (by simp [h0]), if_neg (by omega : ¬ r = 0)]
          have hfail2 : ∀ j, j < m → ok (attempt + 1 + j) = false := by
            intro j hj
            have h := hfail (j + 1) (by omega)
            have he : attempt + (j + 1) = attempt + 1 + j := by omega
            rwa [he] at h
          have hok2 : ok (attempt + 1 + m) = true := by
            have he : attempt + (m + 1) = attempt + 1 + m := by omega
            rwa [he] at hok
          have := ih (attempt + 1) m (by omega) hfail2 hok2
          simp only [this]

/-- When every attempt in the window fails, the navigation loop exhausts
the window, restarting after every failed attempt except the last, and
raises the error message. -/
theorem navLoop_all_fail (ok : Nat → Bool) (errMsg : String) :
    ∀ remaining attempt, 1 ≤ remaining →
      (∀ j, j < remaining → ok (attempt + j) = false) →
      navLoop ok errMsg attempt remaining =
        ⟨remaining, remaining - 1, .error errMsg⟩ := by
  intro remaining
  induction remaining with
  | zero => intro attempt h _; omega
  | succ r ih =>
      intro attempt _ hfail
      have h0 : ok attempt = false := by simpa using hfail 0 (by omega)
      simp only [navLoop]
      rw [if_neg (by simp [h0])]
      by_cases hr : r = 0
      · subst hr; simp
      · rw [if_neg hr]
        have hfail2 : ∀ j, j < r → ok (attempt + 1 + j) = false := by
          intro j hj
          have h := hfail (j + 1) (by omega)
          have he : attempt + (j + 1) = attempt + 1 + j := by omega
          rwa [he] at h
        have hstep := ih (attempt + 1) (by omega) hfail2
        rw [hstep]
        show (⟨r + 1, r - 1 + 1, Except.error errMsg⟩ : NavOutcome) = _
        simp only [NavOutcome.mk.injEq, true_and, and_true]
        omega

/-! Claim theorems. -/

/-- C1: _clear_paste_and_verify performs at most MAX_PASTE_RETRIES (= 3)
clear-paste-verify attempts; it returns normally exactly when some
attempt's read-back textarea text, after normalization, equals the
normalized intended message; when all attempts mismatch it raises a
RuntimeError reporting the expected and actual character counts, so it
never returns normally with unverified content. -/
theorem clear_paste_and_verify_spec (reads : Nat → String) (message : String) :
    (clearPasteAndVerify reads message).attemptsUsed ≤ MAX_PASTE_RETRIES ∧
    ((clearPasteAndVerify reads message).result = .ok () ↔
      ∃ i, i < MAX_PASTE_RETRIES ∧ normalizeText (reads i) = normalizeText message) ∧
    ((∀ i, i < MAX_PASTE_RETRIES → normalizeText (reads i) ≠ normalizeText message) →
      (clearPasteAndVerify reads message).result =
        .error ((normalizeText message).length,
                (normalizeText (reads MAX_PASTE_RETRIES)).length)) := by
  refine ⟨?_, clearPasteAndVerify_ok_iff reads message, ?_⟩
  · have := pasteVerifyLoop_attempts_le reads (normalizeText message) MAX_PASTE_RETRIES 0
    simpa using this
  · intro h
    have := pasteVerifyLoop_all_fail reads (normalizeText message) MAX_PASTE_RETRIES 0
      (fun i h1 h2 => h i (by omega))
    show (pasteVerifyLoop reads (normalizeText message) MAX_PASTE_RETRIES 0).result = _
    rw [this]
    simp

/-- Witness for C1 at a concrete input: a first-attempt match verifies. -/
theorem clear_paste_and_verify_spec_witness :
    (clearPasteAndVerify (fun _ => "hello") "hello").result = .ok () :=
  (clear_paste_and_verify_spec (fun _ => "hello") "hello").2.1.mpr
    ⟨0, by norm_num [MAX_PASTE_RETRIES], rfl⟩

/-- C2: navigate_to_chat makes at most NAV_MAX_RETRIES (= 3) attempts,
returns as soon as an attempt succeeds having restarted once per earlier
failed attempt, and when all three attempts fail it performs exactly two
restarts and raises an error whose message embeds the retry count 3 and
the last observed URL. -/
theorem navigate_to_chat_spec (ok : Nat → Bool) (lastUrl : String) (headless : Bool) :
    (navigateToChat ok lastUrl headless).attempts ≤ NAV_MAX_RETRIES ∧
    (ok 1 = true → navigateToChat ok lastUrl headless = ⟨1, 0, .ok ()⟩) ∧
    (ok 1 = false → ok 2 = true → navigateToChat ok lastUrl headless = ⟨2, 1, .ok ()⟩) ∧
    (ok 1 = false → ok 2 = false → ok 3 = true →
      navigateToChat ok lastUrl headless = ⟨3, 2, .ok ()⟩) ∧
    (ok 1 = false → ok 2 = false → ok 3 = false →
      navigateToChat ok lastUrl headless =
        ⟨NAV_MAX_RETRIES, NAV_MAX_RETRIES - 1,
         .error (navErrorMessage lastUrl headless)⟩) ∧
    (∃ p q, navErrorMessage lastUrl headless = p ++ "3" ++ q) ∧
    (∃ p q, navErrorMessage lastUrl headless = p ++ lastUrl ++ q) := by
  refine ⟨navLoop_attempts_le ok (navErrorMessage lastUrl headless) NAV_MAX_RETRIES 1,
    ?_, ?_, ?_, ?_, ?_, ?_⟩
  · intro h1
    exact navLoop_success ok (navErrorMessage lastUrl headless) NAV_MAX_RETRIES 1 0
      (by norm_num [NAV_MAX_RETRIES]) (fun j hj => by omega) (by simpa using h1)
  · intro h1 h2
    exact navLoop_success ok (navErrorMessage lastUrl headless) NAV_MAX_RETRIES 1 1
      (by norm_num [NAV_MAX_RETRIES])
      (fun j hj => by interval_cases j <;> simpa using h1) (by simpa using h2)
  · intro h1 h2 h3
    exact navLoop_success ok (navErrorMessage lastUrl headless) NAV_MAX_RETRIES 1 2
      (by norm_num [NAV_MAX_RETRIES])
      (fun j hj => by interval_cases j <;> simp_all) (by simpa using h3)
  · intro h1 h2 h3
    exact navLoop_all_fail ok (navErrorMessage lastUrl headless) NAV_MAX_RETRIES 1
      (by norm_num [NAV_MAX_RETRIES])
      (fun j hj => by
        have hj3 : j < 3 := by simpa [NAV_MAX_RETRIES] using hj
        interval_cases j <;> simp_all)
  · refine ⟨"ChatGPT nicht erreichbar nach ",
      " Versuchen (letzte URL: " ++ lastUrl ++ ", headless=" ++ toString headless ++ ")", ?_⟩
    have h3 : toString NAV_MAX_RETRIES = "3" := rfl
    simp only [navErrorMessage, h3, String.append_assoc]
  · refine ⟨"ChatGPT nicht erreichbar nach " ++ toString NAV_MAX_RETRIES ++
      " Versuchen (letzte URL: ",
      ", headless=" ++ toString headless ++ ")", ?_⟩
    simp only [navErrorMessage, String.append_assoc]

/-- Witness for C2 at a concrete input: a first failure followed by a
success yields one restart and a normal return. -/
theorem navigate_to_chat_spec_witness :
    navigateToChat (fun i => i == 2) "https://chatgpt.com/" false = ⟨2, 1, .ok ()⟩ :=
  (navigate_to_chat_spec (fun i => i == 2) "https://chatgpt.com/" false).2.2.1 rfl rfl

/-- C3: the reply wait polls the assistant-message count at 1s intervals up
to the 30s ceiling; when the count stays at previousCount for the whole
window the call returns the empty string (no exception), and when the count
exceeds previousCount at some tick of the window it proceeds to
generation-wait and extraction. -/
theorem response_cursor_spec (env : ResponseEnv) (previousCount : Nat) :
    ((∀ t, t < 30000 / RESPONSE_POLL_INTERVAL_MS → env.counts t ≤ previousCount) →
      waitAndCopyResponse env previousCount = .ok "") ∧
    ((∃ t, t < 30000 / RESPONSE_POLL_INTERVAL_MS ∧ previousCount < env.counts t) →
      waitAndCopyResponse env previousCount = extractAfterNewMessage env) := by
  constructor
  · intro h
    have hn : pollUntil (fun t => decide (previousCount < env.counts t))
        (30000 / RESPONSE_POLL_INTERVAL_MS) 0 = none := by
      rw [pollUntil_none_iff]
      intro s h1 h2
      simp only [decide_eq_false_iff_not, not_lt]
      exact h s (by omega)
    simp [waitAndCopyResponse, hn]
  · rintro ⟨t, ht, hc⟩
    obtain ⟨s, hs⟩ := pollUntil_some_of_exists
      (fun t => decide (previousCount < env.counts t)) (30000 / RESPONSE_POLL_INTERVAL_MS) 0
      ⟨t, by omega, by omega, by simpa using hc⟩
    simp [waitAndCopyResponse, hs]

/-- Witness for C3 at a concrete input: a count that never moves yields the
empty string. -/
theorem response_cursor_spec_witness :
    waitAndCopyResponse ⟨fun _ => 0, fun _ => false, true, true, some "r", some "r", ["d"]⟩ 0 =
      .ok "" :=
  (response_cursor_spec ⟨fun _ => 0, fun _ => false, true, true, some "r", some "r", ["d"]⟩ 0).1
    (fun t _ => Nat.le_refl 0)

/-- C4: once generation has finished and the copy button of the last turn
was clicked, extraction tries the OS clipboard, then the page-side
clipboard read, then the DOM scrape, in this order, and the first tier
whose value is non-empty and differs from the sentinel is returned,
short-circuiting the remaining tiers. -/
theorem extraction_tiering_spec (env : ResponseEnv)
    (hturns : env.turnsPresent = true) (hcopy : env.copyBtnPresent = true)
    (hgen : ∃ u, pollUntil (fun t => !env.stopPresent t)
        (RESPONSE_TIMEOUT_MS / RESPONSE_POLL_INTERVAL_MS) 0 = some u) :
    (readClipboard env ≠ "" ∧ readClipboard env ≠ SENTINEL →
      extractAfterNewMessage env = .ok (readClipboard env)) ∧
    (¬(readClipboard env ≠ "" ∧ readClipboard env ≠ SENTINEL) →
      (∀ jsText, env.jsClipboard = some jsText →
        ((jsText ≠ "" ∧ jsText ≠ SENTINEL → extractAfterNewMessage env = .ok jsText) ∧
         (¬(jsText ≠ "" ∧ jsText ≠ SENTINEL) →
           extractAfterNewMessage env = .ok (domScrapeResponse env)))) ∧
      (env.jsClipboard = none →
        extractAfterNewMessage env = .ok (domScrapeResponse env))) := by
  obtain ⟨u, hu⟩ := hgen
  constructor
  · intro h1
    simp only [extractAfterNewMessage, hu, hturns, hcopy, Bool.not_true, Bool.false_eq_true,
      if_false]
    rw [if_pos h1]
  · intro hn
    constructor
    · intro jsText hjs
      constructor
      · intro h2
        simp only [extractAfterNewMessage, hu, hturns, hcopy, Bool.not_true,
          Bool.false_eq_true, if_false]
        rw [if_neg hn, hjs]
        show (if jsText ≠ "" ∧ jsText ≠ SENTINEL then Except.ok jsText
          else Except.ok (domScrapeResponse env)) = _
        rw [if_pos h2]
      · intro h2
        simp only [extractAfterNewMessage, hu, hturns, hcopy, Bool.not_true,
          Bool.false_eq_true, if_false]
        rw [if_neg hn, hjs]
        show (if jsText ≠ "" ∧ jsText ≠ SENTINEL then Except.ok jsText
          else Except.ok (domScrapeResponse env)) = _
        rw [if_neg h2]
    · intro hjsn
      simp only [extractAfterNewMessage, hu, hturns, hcopy, Bool.not_true,
        Bool.false_eq_true, if_false]
      rw [if_neg hn, hjsn]

/-- Witness for C4 at a concrete input: a fresh OS-clipboard value is
returned by the first tier. -/
theorem extraction_tiering_spec_witness :
    extractAfterNewMessage ⟨fun _ => 1, fun _ => false, true, true, some "md", some "js", ["dom"]⟩ =
      .ok "md" :=
  (extraction_tiering_spec
      ⟨fun _ => 1, fun _ => false, true, true, some "md", some "js", ["dom"]⟩
      rfl rfl ⟨0, rfl⟩).1 (by constructor <;> decide)

/-- C5 counterexample: with the disabled send button matched at every poll
tick of the 60s window and a file attached, _wait_for_upload_complete
exhausts the window and _send_message_impl still returns normally — the
upload-timeout exhaustion is not converted into a fatal error, the message
is submitted anyway (sende trotzdem). -/
theorem upload_timeout_counterexample :
    (sendMessageImpl
        ⟨0, true, true, fun _ => true, fun _ => "m", true, true,
          ⟨fun _ => 0, fun _ => false, true, true, some "r", some "r", ["d"]⟩⟩
        "m").uploadOutcome = some .timedOutProceed ∧
    (sendMessageImpl
        ⟨0, true, true, fun _ => true, fun _ => "m", true, true,
          ⟨fun _ => 0, fun _ => false, true, true, some "r", some "r", ["d"]⟩⟩
        "m").result = .ok "" := by
  constructor <;> rfl

/-- C5 amended: when the upload-completion poll exhausts its 60s ceiling
with the submission control still disabled, the send proceeds normally —
the upload wait reports the exhaustion only through a logged warning, and
the message is pasted, submitted and its reply awaited as usual. -/
theorem upload_timeout_amended (env : SendEnv) (message : String)
    (hFile : env.hasFile = true) (hAttach : env.fileAttachOk = true)
    (hStuck : ∀ t, t < UPLOAD_TIMEOUT_MS / UPLOAD_POLL_INTERVAL_MS →
      env.uploadDisabled t = true)
    (hPaste : ∃ i, i < MAX_PASTE_RETRIES ∧
      normalizeText (env.pasteReads i) = normalizeText message) :
    (sendMessageImpl env message).uploadOutcome = some .timedOutProceed ∧
    (sendMessageImpl env message).result =
      waitAndCopyResponse env.response env.previousCount := by
  have hupload : waitForUploadComplete env.uploadDisabled = .timedOutProceed := by
    have hn : pollUntil (fun t => !env.uploadDisabled t)
        (UPLOAD_TIMEOUT_MS / UPLOAD_POLL_INTERVAL_MS) 0 = none := by
      rw [pollUntil_none_iff]
      intro s h1 h2
      simp [hStuck s (by omega)]
    simp [waitForUploadComplete, hn]
  have hok := (clearPasteAndVerify_ok_iff env.pasteReads message).mpr hPaste
  simp [sendMessageImpl, hFile, hAttach, hupload, hok]

/-- Witness for C5 amended at a concrete input. -/
theorem upload_timeout_amended_witness :
    (sendMessageImpl
        ⟨0, true, true, fun _ => true, fun _ => "n", false, false,
          ⟨fun _ => 0, fun _ => false, true, true, some "r", some "r", ["d"]⟩⟩
        "n").result = .ok "" := by
  have h := upload_timeout_amended
    ⟨0, true, true, fun _ => true, fun _ => "n", false, false,
      ⟨fun _ => 0, fun _ => false, true, true, some "r", some "r", ["d"]⟩⟩
    "n" rfl rfl (fun t _ => rfl) ⟨0, by norm_num [MAX_PASTE_RETRIES], rfl⟩
  rw [h.2]
  rfl

/-- C6 counterexample: with the send-button selector still matching but the
control disabled, the fallback click is performed — the source only tests
presence, never the enabled state. -/
theorem fallback_click_counterexample :
    (sendMessageImpl
        ⟨0, false, true, fun _ => false, fun _ => "m", true, false,
          ⟨fun _ => 0, fun _ => false, true, true, some "r", some "r", ["d"]⟩⟩
        "m").fallbackClicked = true ∧
    (⟨0, false, true, fun _ => false, fun _ => "m", true, false,
        ⟨fun _ => 0, fun _ => false, true, true, some "r", some "r", ["d"]⟩⟩ :
      SendEnv).sendBtnEnabled = false := by
  constructor <;> rfl

/-- C6 amended: after submitting via the Enter key, the fallback direct
click on the submit control is performed if and only if the submit control
is still present — its enabled state is not consulted. -/
theorem fallback_click_amended (env : SendEnv) (message : String)
    (hAttach : env.hasFile = true → env.fileAttachOk = true)
    (hPaste : ∃ i, i < MAX_PASTE_RETRIES ∧
      normalizeText (env.pasteReads i) = normalizeText message) :
    (sendMessageImpl env message).fallbackClicked = env.sendBtnPresent := by
  have hok := (clearPasteAndVerify_ok_iff env.pasteReads message).mpr hPaste
  have hcond : (env.hasFile && !env.fileAttachOk) = false := by
    cases hf : env.hasFile
    · simp
    · simp [hAttach hf]
  simp [sendMessageImpl, hcond, hok]

/-- Witness for C6 amended at a concrete input: present button, click
performed. -/
theorem fallback_click_amended_witness :
    (sendMessageImpl
        ⟨0, false, true, fun _ => false, fun _ => "w", true, true,
          ⟨fun _ => 0, fun _ => false, true, true, some "r", some "r", ["d"]⟩⟩
        "w").fallbackClicked = true :=
  fallback_click_amended
    ⟨0, false, true, fun _ => false, fun _ => "w", true, true,
      ⟨fun _ => 0, fun _ => false, true, true, some "r", some "r", ["d"]⟩⟩
    "w" (fun _ => rfl) ⟨0, by norm_num [MAX_PASTE_RETRIES], rfl⟩

/-- C7: send_message runs under an overall SEND_TIMEOUT_S = 2500 second
deadline, strictly larger than the RESPONSE_TIMEOUT_MS = 2400 second
reply-wait deadline, and when the overall deadline fires it raises a
timeout error whose message names the last known URL. -/
theorem send_overall_timeout_spec (url : String) (env : SendEnv) (message : String) :
    SEND_TIMEOUT_S = 2500 ∧ RESPONSE_TIMEOUT_MS = 2400 * 1000 ∧
    RESPONSE_TIMEOUT_MS < SEND_TIMEOUT_S * 1000 ∧
    sendMessage true (some url) env message = .error (sendTimeoutMessage url) ∧
    (∃ p q, sendTimeoutMessage url = p ++ url ++ q) := by
  refine ⟨rfl, rfl, by norm_num [RESPONSE_TIMEOUT_MS, SEND_TIMEOUT_S], ?_, ?_⟩
  · simp [sendMessage]
  · refine ⟨"send_message Gesamt-Timeout (" ++ toString SEND_TIMEOUT_S ++
      "s) überschritten. URL: ", "", ?_⟩
    simp only [sendTimeoutMessage, String.append_assoc, String.append_empty]

/-- C8: whenever _ensure_ready's error detection classifies the page as
session-expired, it goes straight into the auto-visible-login escalation
and returns, without consulting is_logged_in; every other non-challenge
classification (or none) falls through to the login check. -/
theorem ensure_ready_session_expired_spec (env : ReadyEnv) :
    (env.errorState = some .sessionExpired →
      ensureReady env =
        ⟨!env.contextAlive, env.newChat || !env.navigated || !env.contextAlive,
         false, true, env.autoLoginResult⟩) ∧
    (env.errorState ≠ some .sessionExpired → env.errorState ≠ some .cloudflareChallenge →
      (ensureReady env).loginChecked = true) := by
  constructor
  · intro h
    simp [ensureReady, h]
  · intro h1 h2
    cases he : env.errorState with
    | none =>
        by_cases hl : env.loggedIn = true <;> simp [ensureReady, he, hl]
    | some e =>
        cases e with
        | cloudflareChallenge => exact absurd he h2
        | sessionExpired => exact absurd he h1
        | errorDialogDismissed =>
            by_cases hl : env.loggedIn = true <;> simp [ensureReady, he, hl]
        | errorDialogVisible =>
            by_cases hl : env.loggedIn = true <;> simp [ensureReady, he, hl]

/-- Witness for C8 at a concrete input: a session-expired classification
yields the auto-login trace with no login check. -/
theorem ensure_ready_session_expired_witness :
    ensureReady ⟨true, true, true, some .sessionExpired, false, .ok ()⟩ =
      ⟨false, true, false, true, .ok ()⟩ :=
  (ensure_ready_session_expired_spec
    ⟨true, true, true, some .sessionExpired, false, .ok ()⟩).1 rfl

/-- C9: chatgpt_reset always clears both the browser handle and the
navigated flag and returns the success string, regardless of whether a
Session exists and of whether closing the browser raises; when no Session
exists the close is not even attempted, and a second call in a row behaves
identically. -/
theorem chatgpt_reset_idempotent (closeResult closeResult2 : Except String Unit)
    (st : ServerState) :
    (chatgptReset closeResult st).newState = ⟨false, false⟩ ∧
    (chatgptReset closeResult st).reply = resetMessage ∧
    (st.browserStarted = false → (chatgptReset closeResult st).closeAttempted = false) ∧
    chatgptReset closeResult2 (chatgptReset closeResult st).newState =
      ⟨false, ⟨false, false⟩, resetMessage⟩ := by
  refine ⟨rfl, rfl, fun h => ?_, rfl⟩
  simp [chatgptReset, h]

/-- Witness for C9 at a concrete input: resetting with no Session and a
failing close still reports no close attempt. -/
theorem chatgpt_reset_idempotent_witness :
    (chatgptReset (.error "close failed") ⟨false, true⟩).closeAttempted = false :=
  (chatgpt_reset_idempotent (.error "close failed") (.ok ()) ⟨false, true⟩).2.2.1 rfl

/-- C10: the liveness probes are total Bool-valued functions of the
observable browser state — is_context_alive is false whenever the context
or page reference is missing or the closed-state check raises, and
check_context_alive is false whenever the synchronous check fails or the
page evaluation raises; truth of either requires every underlying
operation to have succeeded. -/
theorem liveness_probes_total (b : BrowserState) :
    ((b.contextPresent = false ∨ b.pagePresent = false ∨ b.pageIsClosed = none) →
      is_context_alive b = false) ∧
    ((is_context_alive b = false ∨ b.pageEval = none) → check_context_alive b = false) ∧
    (check_context_alive b = true ↔ is_context_alive b = true ∧ b.pageEval ≠ none) := by
  refine ⟨?_, ?_, ?_⟩
  · intro h
    rcases h with h | h | h <;> simp [is_context_alive, h]
  · intro h
    rcases h with h | h <;> simp [check_context_alive, h]
  · constructor
    · intro h
      by_cases ha : is_context_alive b = true
      · refine ⟨ha, ?_⟩
        intro hp
        rw [check_context_alive, if_neg (by simp [ha]), hp] at h
        exact absurd h (by simp)
      · rw [check_context_alive,
          if_pos (by simp [Bool.eq_false_iff.mpr (fun hc => ha hc)])] at h
        exact absurd h (by simp)
    · rintro ⟨ha, hne⟩
      cases hp : b.pageEval with
      | none => exact absurd hp hne
      | some u => simp [check_context_alive, ha, hp]

/-- Witness for C10 at a concrete input: a missing context makes both
probes report false. -/
theorem liveness_probes_total_witness :
    is_context_alive ⟨false, true, some false, some ()⟩ = false :=
  (liveness_probes_total ⟨false, true, some false, some ()⟩).1 (Or.inl rfl)
